import Mathlib

/-!
Verification of the soaplib serializer layer
(`src/soaplib/serializers/base.py` and `src/soaplib/serializers/primitive.py`).

The Python code is shallowly embedded: each serializer classmethod becomes a
Lean function on an explicit XML-tree model, Python `None` becomes `Option`,
and raising becomes `Except PyErr`.  Machine-independent data (ints, dates)
is modelled with `Int`/`Nat`.
-/

set_option maxRecDepth 4000

/-- Python exceptions that the embedded code can raise. -/
inductive PyErr where
  | exception (msg : String)
  | attributeError (msg : String)
  | valueError (msg : String)
  | typeError (msg : String)
  | assertionError (msg : String)
  deriving DecidableEq

/-- An lxml `etree.Element`: a tag, an ordered attribute list, optional text
and a child list.  (Tail text and namespaces-as-maps are not needed by the
code under verification.) -/
inductive XmlTree where
  | elem (tag : String) (attrs : List (String × String)) (text : Option String)
         (children : List XmlTree)

def XmlTree.tag : XmlTree → String
  | .elem t _ _ _ => t

def XmlTree.attrs : XmlTree → List (String × String)
  | .elem _ a _ _ => a

def XmlTree.text : XmlTree → Option String
  | .elem _ _ t _ => t

def XmlTree.children : XmlTree → List XmlTree
  | .elem _ _ _ c => c

/-- `element.get(key)`: the value of the first attribute named `key`. -/
def XmlTree.get (e : XmlTree) (key : String) : Option String :=
  (e.attrs.find? (fun p => p.1 == key)).map (fun p => p.2)

/-- `element.set(key, val)`: replace the attribute if present, else append. -/
def XmlTree.setAttr (e : XmlTree) (key val : String) : XmlTree :=
  .elem e.tag
    (if e.attrs.any (fun p => p.1 == key)
     then e.attrs.map (fun p => if p.1 == key then (key, val) else p)
     else e.attrs ++ [(key, val)])
    e.text e.children

/-- Python truthiness of `element.get(...)`: `None` and `""` are falsy,
every other string is truthy (this is `bool(element.get('{xsi}nil'))`). -/
def pyTruthyStr : Option String → Bool
  | none => false
  | some s => !s.isEmpty

/-- The Clark-notation attribute key `{http://...XMLSchema-instance}nil`. -/
def nilKey : String := "\x7bhttp://www.w3.org/2001/XMLSchema-instance\x7dnil"

/-- The Clark-notation attribute key `{http://...XMLSchema-instance}type`. -/
def typeKey : String := "\x7bhttp://www.w3.org/2001/XMLSchema-instance\x7dtype"

/-- `"{tns}name"` tag construction used by `etree.Element` calls. -/
def qname (tns name : String) : String := "\x7b" ++ tns ++ "\x7d" ++ name

/-- `Null.to_xml`: an element with the xsi nil marker set to `"true"`,
no text and no children (base.py lines 141-146). -/
def Null_to_xml (tns name : String) : XmlTree :=
  (XmlTree.elem (qname tns name) [] none []).setAttr nilKey "true"

/-- The `@nillable_value` decorator (base.py lines 24-29): `None` is routed to
`Null.to_xml`, any other value to the wrapped serializer. -/
def nillableValue {α : Type} (f : α → String → String → XmlTree)
    (value : Option α) (tns name : String) : XmlTree :=
  match value with
  | none => Null_to_xml tns name
  | some v => f v tns name

/-- The `@nillable_element` decorator (base.py lines 31-36): if
`bool(element.get('{xsi}nil'))` the wrapped decoder is never invoked and the
result is Python `None`; otherwise the decoder runs (errors propagate). -/
def nillableElement {α : Type} (f : XmlTree → Except PyErr α)
    (e : XmlTree) : Except PyErr (Option α) :=
  if pyTruthyStr (e.get nilKey) then .ok none
  else (f e).map some

/-- `retval.text = value`. -/
def XmlTree.withText (e : XmlTree) (value : String) : XmlTree :=
  .elem e.tag e.attrs (some value) e.children

/-- `string_to_xml` (base.py lines 38-47): fresh element named `{tns}name`,
xsi:type attribute set to the serializer's namespace-qualified type name,
text set to the (string) value.  The `isinstance(value, str/unicode)` assert
is satisfied by construction here since `value : String`. -/
def string_to_xml (type_name_ns : String) (value : String)
    (tns name : String) : XmlTree :=
  ((XmlTree.elem (qname tns name) [] none []).setAttr typeKey type_name_ns).withText value

/-- A Python value that is either an `int` or the string `"unbounded"`
(used for `max_occurs` / `max_len`).  Python 2 `==` between an int and a
string is `False`, which the `DecidableEq` of this type reproduces. -/
inductive PyLen where
  | num (n : Nat)
  | unbounded
  deriving DecidableEq

/-- The flattened Attribute Record of a descriptor: the fields of
`Base.Attributes`, `SimpleType.Attributes` (`values`, modelled as a list
compared for equality with the empty default) and `String.Attributes`. -/
structure Attributes where
  nillable : Bool
  min_occurs : Nat
  max_occurs : PyLen
  values : List String
  min_len : Nat
  max_len : PyLen
  pat : Option String
  deriving DecidableEq

/-- The stack of class-level defaults: `Base.Attributes` (nillable=True,
min_occurs=0, max_occurs=1), `SimpleType.Attributes` (values=set()),
`String.Attributes` (min_len=0, max_len="unbounded", pattern=None). -/
def defaultAttributes : Attributes :=
  { nillable := true, min_occurs := 0, max_occurs := .num 1,
    values := [], min_len := 0, max_len := .unbounded, pat := none }

/-- `Base.is_default` (base.py lines 61-65): compares the descriptor's
nillable/min_occurs/max_occurs with `Base.Attributes`' defaults. -/
def Base_is_default (a : Attributes) : Bool :=
  a.nillable == defaultAttributes.nillable
    && a.min_occurs == defaultAttributes.min_occurs
    && a.max_occurs == defaultAttributes.max_occurs

/-- `SimpleType.is_default` (base.py lines 183-186).  The source reads
`return (Base.is_default() and cls.Attributes.values == SimpleType.Attributes.values)`.
`Base.is_default` is a classmethod accessed through the class `Base` itself,
so `cls` is bound to `Base`, not to the descriptor being asked: the first
conjunct is `Base_is_default` applied to Base's own default record, not to
`a`.  The embedding keeps that call exactly as written. -/
def SimpleType_is_default (a : Attributes) : Bool :=
  Base_is_default defaultAttributes
    && a.values == defaultAttributes.values

/-- `String.is_default` (primitive.py lines 112-117).  As above, the source's
`SimpleType.is_default()` binds `cls` to `SimpleType`, so the first conjunct
is `SimpleType_is_default` applied to SimpleType's own default record. -/
def String_is_default (a : Attributes) : Bool :=
  SimpleType_is_default defaultAttributes
    && a.min_len == defaultAttributes.min_len
    && a.max_len == defaultAttributes.max_len
    && a.pat == defaultAttributes.pat

/-- A Python `datetime.date`. -/
structure PyDate where
  year : Nat
  month : Nat
  day : Nat
  deriving DecidableEq

/-- Zero-padded decimal rendering (`%04d` style) used by `isoformat`. -/
def padNum (width n : Nat) : String :=
  let s := toString n
  String.mk (List.replicate (width - s.length) '0') ++ s

/-- `date.isoformat()`: `YYYY-MM-DD`. -/
def PyDate.isoformat (d : PyDate) : String :=
  padNum 4 d.year ++ "-" ++ padNum 2 d.month ++ "-" ++ padNum 2 d.day

/-- `cls.get_type_name_ns()` for the xsd `Date` descriptor.  The namespace
prefix machinery is not under verification; the qualified name is carried
opaquely into the xsi:type attribute. -/
def dateTypeNs : String := "xs:date"

/-- `Date.to_xml` (primitive.py lines 184-187), `@nillable_value` included:
`string_to_xml(cls, value.isoformat(), tns, name)`. -/
def Date_to_xml (value : Option PyDate) (tns name : String) : XmlTree :=
  nillableValue (fun d => string_to_xml dateTypeNs d.isoformat) value tns name

/-- The body of `Date.from_xml` (primitive.py lines 189-205).  The source
evaluates `_date_pattern.match(text)`, but `_date_pattern` (primitive.py
line 38) is the raw pattern *string*, never compiled with `re.compile`, and
`str` has no `match` method: every call raises `AttributeError` before the
element text is examined. -/
def Date_from_inner (_e : XmlTree) : Except PyErr PyDate :=
  .error (.attributeError "str object has no attribute match")

/-- `Date.from_xml` with its `@nillable_element` decorator. -/
def Date_from_xml (e : XmlTree) : Except PyErr (Option PyDate) :=
  nillableElement Date_from_inner e

/-- The value of the Python expression `s and s.lower()[0] == 't'` in
`Boolean.from_xml`: `None` when the text is absent, the empty string when it
is empty, and a genuine bool otherwise. -/
inductive PyBoolRes where
  | pyNone
  | pyStr (s : String)
  | pyBool (b : Bool)
  deriving DecidableEq

/-- Python truthiness of a `PyBoolRes`. -/
def PyBoolRes.truthy : PyBoolRes → Bool
  | .pyNone => false
  | .pyStr s => !s.isEmpty
  | .pyBool b => b

/-- `cls.get_type_name_ns()` for the xsd `Boolean` descriptor (opaque). -/
def booleanTypeNs : String := "xs:boolean"

/-- `Boolean.to_xml` (primitive.py lines 260-263), `@nillable_value`
included: `string_to_xml(cls, str(bool(value)).lower(), tns, name)`, which
for a bool value renders exactly `"true"` or `"false"`. -/
def Boolean_to_xml (value : Option Bool) (tns name : String) : XmlTree :=
  nillableValue
    (fun b => string_to_xml booleanTypeNs (if b then "true" else "false"))
    value tns name

/-- The Python expression `s and s.lower()[0] == 't'` over `s = element.text`:
`None` stays `None`, the empty string stays `""` (both falsy), otherwise the
comparison runs — `s.lower()[0]` is the lowercase of the first character for
the ASCII texts at issue. -/
def pyBoolOfText : Option String → PyBoolRes
  | none => .pyNone
  | some s =>
    match s.toList with
    | [] => .pyStr s
    | c :: _ => .pyBool (c.toLower == 't')

/-- The body of `Boolean.from_xml` (primitive.py lines 265-269):
`s = element.text; return (s and s.lower()[0] == 't')`. -/
def Boolean_from_inner (e : XmlTree) : Except PyErr PyBoolRes :=
  .ok (pyBoolOfText e.text)

/-- `Boolean.from_xml` with its `@nillable_element` decorator. -/
def Boolean_from_xml (e : XmlTree) : Except PyErr (Option PyBoolRes) :=
  nillableElement Boolean_from_inner e

/-- The child serializer slot of an `Array` descriptor: its
namespace-qualified type name (`get_type_name_ns`), its bare type name
(`get_type_name`) and its `to_xml`. -/
structure ChildSerializer (α : Type) where
  type_name_ns : String
  type_name : String
  toXml : α → String → String → XmlTree

/-- The body of `Array.to_xml` (primitive.py lines 305-324), *without* the
decorator.  `array_tn` is `cls.get_type_name_ns()` of the Array descriptor
itself (its namespace resolution is not under verification).  The
`if values == None: values = []` branch of the source is the `none` case of
the match; the wire-type attribute uses the plain (not Clark-qualified) key
`'type'`; each member is serialized by the child serializer under the
child's type name.  The `iter(values)` type check cannot fail here because
the value is already a list. -/
def Array_to_inner {α : Type} (ser : ChildSerializer α) (array_tn : String)
    (values : Option (List α)) (tns name : String) : XmlTree :=
  let base := (XmlTree.elem (qname tns name) [] none []).setAttr "type" array_tn
  let vs := match values with
            | none => []
            | some l => l
  .elem base.tag base.attrs base.text
    (vs.map (fun v => ser.toXml v tns ser.type_name))

/-- `Array.to_xml` with its `@nillable_value` decorator: `None` is
intercepted by the wrapper before the body's own `values == None` branch can
run. -/
def Array_to_xml {α : Type} (ser : ChildSerializer α) (array_tn : String)
    (values : Option (List α)) (tns name : String) : XmlTree :=
  match values with
  | none => Null_to_xml tns name
  | some _ => Array_to_inner ser array_tn values tns name

/-- A concrete child serializer (the xsd `Integer` descriptor's `to_xml`,
primitive.py lines 172-175) for closed evaluations. -/
def integerChildSerializer : ChildSerializer Int :=
  { type_name_ns := "xs:integer", type_name := "integer",
    toXml := fun v tns name => string_to_xml "xs:integer" (toString v) tns name }

/-- Numeric value of a decimal digit character. -/
def digitVal (c : Char) : Nat := c.toNat - 48

/-- Two fixed decimal digits as a number, e.g. the `\d{2}` regex groups. -/
def num2 (a b : Char) : Nat := 10 * digitVal a + digitVal b

/-- Four fixed decimal digits as a number, the `\d{4}` year group. -/
def num4 (a b c d : Char) : Nat :=
  1000 * digitVal a + 100 * digitVal b + 10 * digitVal c + digitVal d

/-- Value of a digit string, most significant first. -/
def digitsToNat (ds : List Char) : Nat :=
  ds.foldl (fun a c => 10 * a + digitVal c) 0

/-- The groups captured by `_datetime_pattern` (primitive.py lines 38-41):
year, month, day, hour, minute, second, and the optional `sec_frac` group
(its digits, the leading `.` stripped). -/
structure DtFields where
  year : Nat
  month : Nat
  day : Nat
  hr : Nat
  minute : Nat
  sec : Nat
  sec_frac : Option (List Char)
  deriving DecidableEq

/-- Anchored prefix match of `_datetime_pattern`
(`\d{4}-\d{2}-\d{2}[T ]\d{2}:\d{2}:\d{2}(\.\d+)?`) against a character
list, returning the captured fields and the unconsumed remainder.  All
mandatory pieces are fixed width, so the shape match below is exactly the
regex; the optional greedy `(\.\d+)?` takes the maximal digit run after a
`.` (and is skipped when no digit follows the `.`).  Backtracking into the
group can only expose a digit to the following pattern, and the characters
the callers require there (`Z`, `+`, `-`) are not digits, so the maximal
run is faithful to Python's backtracking semantics for every caller.
`fracSplit` handles the optional group: on `.d...` it captures the digit
run, otherwise the group is unmatched and nothing is consumed. -/
def fracSplit : List Char → Option (List Char) × List Char
  | '.' :: ds =>
    if (ds.takeWhile Char.isDigit).isEmpty then (none, '.' :: ds)
    else (some (ds.takeWhile Char.isDigit), ds.dropWhile Char.isDigit)
  | rest => (none, rest)

/-- The mandatory fixed-width part of `_datetime_pattern` followed by the
optional fractional group (`fracSplit`); returns the captured fields and
the unconsumed remainder. -/
def parseDtCore : List Char → Option (DtFields × List Char)
  | y1 :: y2 :: y3 :: y4 :: '-' :: m1 :: m2 :: '-' :: d1 :: d2 :: sep ::
      h1 :: h2 :: ':' :: i1 :: i2 :: ':' :: s1 :: s2 :: rest =>
    if y1.isDigit && y2.isDigit && y3.isDigit && y4.isDigit
        && m1.isDigit && m2.isDigit && d1.isDigit && d2.isDigit
        && (sep == 'T' || sep == ' ')
        && h1.isDigit && h2.isDigit && i1.isDigit && i2.isDigit
        && s1.isDigit && s2.isDigit then
      some (⟨num4 y1 y2 y3 y4, num2 m1 m2, num2 d1 d2,
             num2 h1 h2, num2 i1 i2, num2 s1 s2, (fracSplit rest).1⟩,
            (fracSplit rest).2)
    else none
  | _ => none

/-- `_utc_re.match(text)` (primitive.py line 44): `_datetime_pattern`
followed by a literal `Z`; `re.match` permits trailing garbage. -/
def utcMatch (cs : List Char) : Option DtFields :=
  match parseDtCore cs with
  | some (f, 'Z' :: _) => some f
  | _ => none

/-- `_offset_re.match(text)` (primitive.py line 45): `_datetime_pattern`
followed by `(?P<tz_hr>[+-]\d{2}):(?P<tz_min>\d{2})`, plus the offset
computation of `DateTime.from_xml` (primitive.py lines 236-237):
`int(tz_hr) * 60 + int(tz_min)`, where `int` applies the sign to the hour
group only. -/
def offsetMatch (cs : List Char) : Option (DtFields × Int) :=
  match parseDtCore cs with
  | some (f, sg :: a :: b :: ':' :: c :: d :: _) =>
    if (sg == '+' || sg == '-') && a.isDigit && b.isDigit
        && c.isDigit && d.isDigit then
      some (f, (if sg == '-' then -(num2 a b : Int) else (num2 a b : Int)) * 60
               + (num2 c d : Int))
    else none
  | _ => none

/-- `_local_re.match(text)` (primitive.py line 43): the bare pattern. -/
def localMatch (cs : List Char) : Option DtFields :=
  (parseDtCore cs).map (fun p => p.1)

/-- `tzinfo` of a parsed datetime: `pytz.utc` or `pytz.FixedOffset(minutes)`. -/
inductive PyTzInfo where
  | utc
  | fixedOffset (minutes : Int)
  deriving DecidableEq

/-- A Python `datetime.datetime`. -/
structure PyDateTime where
  year : Nat
  month : Nat
  day : Nat
  hour : Nat
  minute : Nat
  second : Nat
  microsecond : Nat
  tz : Option PyTzInfo
  deriving DecidableEq

/-- Whether `y` is a Gregorian leap year (as `calendar.isleap`). -/
def isLeap (y : Nat) : Bool :=
  (y % 4 == 0 && y % 100 != 0) || y % 400 == 0

/-- Days in a month, as validated by the `datetime.datetime` constructor. -/
def daysInMonth (y m : Nat) : Nat :=
  if m == 2 then (if isLeap y then 29 else 28)
  else if m == 4 || m == 6 || m == 9 || m == 11 then 30
  else 31

/-- Fuel-driven floor of binary log (`Nat.log2`, but structurally recursive
so that closed evaluations reduce in the kernel); the value itself is enough
fuel. -/
def natLog2Aux : Nat → Nat → Nat
  | 0, _ => 0
  | fuel + 1, n => if n < 2 then 0 else natLog2Aux fuel (n / 2) + 1

def natLog2 (n : Nat) : Nat := natLog2Aux n n

/-- Is `2^c ≤ a / b` (for positive `b`)? -/
def pow2LE : Int → Nat → Nat → Bool
  | .ofNat n, a, b => b * 2 ^ n ≤ a
  | .negSucc n, a, b => b ≤ a * 2 ^ (n + 1)

/-- `⌊log2 (a/b)⌋` for a positive rational given as a numerator/denominator
pair: `⌊log2 a⌋ - ⌊log2 b⌋`, corrected down by one when needed. -/
def ratIlog2 (a b : Nat) : Int :=
  let c : Int := (natLog2 a : Int) - (natLog2 b : Int)
  if pow2LE c a b then c else c - 1

/-- Nearest integer to `p / q` (positive `q`), ties to even — the IEEE
rounding of a scaled mantissa. -/
def roundHalfEvenDiv (p q : Nat) : Nat :=
  let f := p / q
  let r := p % q
  if 2 * r < q then f
  else if q < 2 * r then f + 1
  else if f % 2 = 0 then f else f + 1

/-- `(a / b) * 2^s` as a numerator/denominator pair. -/
def scalePow2 (a b : Nat) : Int → Nat × Nat
  | .ofNat n => (a * 2 ^ n, b)
  | .negSucc n => (a, b * 2 ^ (n + 1))

/-- Round the nonnegative rational `a / b` to the nearest IEEE binary64
value (round to nearest, ties to even — CPython's float semantics),
returned exactly as a numerator/denominator pair.  Normal values get a
53-bit mantissa `m` with the doubles in `[2^e, 2^(e+1))` forming the grid
`m * 2^(e-52)`; below `2^-1022` the subnormal grid `m * 2^-1074` applies.
Overflow cannot occur for the values at issue (all below `2^20`). -/
def roundDoublePos (a b : Nat) : Nat × Nat :=
  let e := ratIlog2 a b
  if -1022 ≤ e then
    let p := scalePow2 a b (52 - e)
    let m := roundHalfEvenDiv p.1 p.2
    scalePow2 m 1 (e - 52)
  else
    let p := scalePow2 a b 1074
    let m := roundHalfEvenDiv p.1 p.2
    scalePow2 m 1 (-1074)

/-- `microsec = int(float(fields.get("sec_frac", 0)) * 10 ** 6)`
(primitive.py line 227): an unmatched group gives `0`; a matched group
`.d1..dn` goes through CPython's `float` — the correctly rounded binary64
nearest `D / 10^n` — is multiplied by the exactly representable `10^6`
with one more IEEE rounding, and is truncated toward zero by `int(...)`
(floor, as the value is nonnegative).  Both roundings are modelled exactly
by `roundDoublePos`; note the result is *not* the exact floor
`D * 10^6 / 10^n` (e.g. `.064007` gives 64006, not 64007). -/
def microsecOfFrac : Option (List Char) → Nat
  | none => 0
  | some ds =>
    let f := roundDoublePos (digitsToNat ds) (10 ^ ds.length)
    let p := roundDoublePos (f.1 * 1000000) f.2
    p.1 / p.2

/-- The `datetime.datetime(year, month, day, hr, min, sec, microsec, tz)`
constructor with its range validation (`ValueError` outside
`MINYEAR..MAXYEAR`, month 1-12, a real calendar day, 0-23 h, 0-59 min/sec,
0-999999 microseconds). -/
def mkDatetime (y mo d h mi s us : Nat) (tz : Option PyTzInfo) :
    Except PyErr PyDateTime :=
  if 1 ≤ y ∧ y ≤ 9999 ∧ 1 ≤ mo ∧ mo ≤ 12 ∧ 1 ≤ d ∧ d ≤ daysInMonth y mo
      ∧ h ≤ 23 ∧ mi ≤ 59 ∧ s ≤ 59 ∧ us ≤ 999999 then
    .ok ⟨y, mo, d, h, mi, s, us, tz⟩
  else .error (.valueError "argument out of range")

/-- The body of `DateTime.from_xml` (primitive.py lines 215-243): try
`_utc_re` (tag `pytz.utc`), then `_offset_re` (tag
`FixedOffset(tz_hr*60 + tz_min)`), then `_local_re` (no tag); raise
`Exception("DateTime [%s] not in known format" % text)` when none matches.
`_utc_re.match(None)` — an absent element text — raises `TypeError`. -/
def DateTime_from_inner (e : XmlTree) : Except PyErr PyDateTime :=
  match e.text with
  | none => .error (.typeError "expected string or buffer")
  | some text =>
    match utcMatch text.toList with
    | some f =>
      mkDatetime f.year f.month f.day f.hr f.minute f.sec
        (microsecOfFrac f.sec_frac) (some .utc)
    | none =>
      match offsetMatch text.toList with
      | some (f, off) =>
        mkDatetime f.year f.month f.day f.hr f.minute f.sec
          (microsecOfFrac f.sec_frac) (some (.fixedOffset off))
      | none =>
        match localMatch text.toList with
        | some f =>
          mkDatetime f.year f.month f.day f.hr f.minute f.sec
            (microsecOfFrac f.sec_frac) none
        | none =>
          .error (.exception ("DateTime [" ++ text ++ "] not in known format"))

/-- `DateTime.from_xml` with its `@nillable_element` decorator. -/
def DateTime_from_xml (e : XmlTree) : Except PyErr (Option PyDateTime) :=
  nillableElement DateTime_from_inner e

/-- A bare test element carrying only text, as produced by parsing
`<retval>text</retval>`. -/
def textElem (s : String) : XmlTree := .elem "retval" [] (some s) []

/-- A child of the `<restriction>` element emitted by
`get_restriction_tag`/`String.add_to_schema`. -/
inductive Facet where
  | enumeration (v : String)
  | length (v : Nat)
  | minLength (v : Nat)
  | maxLength (v : PyLen)
  | patternFacet (v : String)
  deriving DecidableEq

/-- Python 2 `cls.Attributes.min_len == cls.Attributes.max_len` where
`min_len` is an int and `max_len` is an int or the string `"unbounded"`:
an int never equals a string. -/
def lenEq (m : Nat) : PyLen → Bool
  | .num n => m == n
  | .unbounded => false

/-- The children of the restriction element built by `String.add_to_schema`
(primitive.py lines 119-141) on top of `get_restriction_tag` (base.py lines
189-203): first one `enumeration` per member of `values`, then the length
facets — a single `length` when `min_len == max_len`, otherwise `minLength`
iff `min_len` differs from `String.Attributes.min_len` (0) and `maxLength`
iff `max_len` differs from `String.Attributes.max_len` ("unbounded") — and
finally a `pattern` facet iff `pattern` differs from its default `None`. -/
def String_restriction_children (a : Attributes) : List Facet :=
  (a.values.map .enumeration)
    ++ (if lenEq a.min_len a.max_len then [.length a.min_len]
        else (if a.min_len != defaultAttributes.min_len
              then [.minLength a.min_len] else [])
          ++ (if a.max_len != defaultAttributes.max_len
              then [.maxLength a.max_len] else []))
    ++ (match a.pat with
        | none => []
        | some p => [.patternFacet p])

/-- `String.add_to_schema` (primitive.py lines 119-141): emits the
restriction (returning its children) only when the descriptor is not
already registered in `schema_entries` (`has_class`) and not default. -/
def String_add_to_schema (registered : Bool) (a : Attributes) :
    Option (List Facet) :=
  if !registered && !String_is_default a then
    some (String_restriction_children a)
  else none

/-- Attribute names of the `Attributes` inner classes (the keys touched by
`customize`/`setattr`). -/
inductive AttrKey where
  | nillable
  | min_occurs
  | max_occurs
  | values
  | min_len
  | max_len
  | patternKey
  deriving DecidableEq

/-- Values storable under those attribute names. -/
inductive AttrVal where
  | b (x : Bool)
  | n (x : Nat)
  | len (x : PyLen)
  | strs (x : List String)
  | txt (x : Option String)
  deriving DecidableEq

/-- A Python class `__dict__`, as a key/value list. -/
abbrev AttrDict := List (AttrKey × AttrVal)

def dictGet (d : AttrDict) (k : AttrKey) : Option AttrVal :=
  (d.find? (fun p => p.1 == k)).map (fun p => p.2)

/-- `setattr` on a single class dict: the new binding shadows any old one
(represented by consing after erasing the key; lookups see exactly the
mutated mapping). -/
def dictSet (d : AttrDict) (k : AttrKey) (v : AttrVal) : AttrDict :=
  (k, v) :: d.filter (fun p => p.1 != k)

/-- The heap of `Attributes` class dicts: dict-object ids to contents, plus
the next fresh id. -/
structure Store where
  heap : Nat → AttrDict
  next : Nat

/-- A descriptor's `Attributes` class: the ids of its own dict and of the
dicts of its bases, in method-resolution order (own dict first, ending at
`Base.Attributes`). -/
structure PyClass where
  chain : List Nat

/-- Python attribute lookup along the MRO: the first dict that binds the
name wins. -/
def lookupAttr (σ : Store) : List Nat → AttrKey → Option AttrVal
  | [], _ => none
  | i :: rest, k =>
    match dictGet (σ.heap i) k with
    | some v => some v
    | none => lookupAttr σ rest k

/-- `Base.customize` (base.py lines 115-138): build a fresh subclass
`class Attributes(cls.Attributes)` and `setattr` each keyword override onto
it — net effect, a fresh dict holding exactly the overrides, whose parent
chain is the original's.  (The copy of the class-level `cls_dict` carries no
attribute state and is not modelled.)  The original class object is not
touched. -/
def pyCustomize (σ : Store) (c : PyClass) (kwargs : AttrDict) :
    Store × PyClass :=
  let fresh := σ.next
  (⟨fun i => if i = fresh then kwargs else σ.heap i, fresh + 1⟩,
   ⟨fresh :: c.chain⟩)

/-- `setattr(C.Attributes, k, v)`: mutate the class's own dict (the head of
its chain) in place. -/
def pySetattr (σ : Store) (c : PyClass) (k : AttrKey) (v : AttrVal) : Store :=
  match c.chain with
  | [] => σ
  | i :: _ => ⟨fun j => if j = i then dictSet (σ.heap i) k v else σ.heap j,
               σ.next⟩

/-- Store well-formedness for a class: every dict id it can reach is
allocated (below `next`). -/
def StoreWF (σ : Store) (c : PyClass) : Prop :=
  ∀ i ∈ c.chain, i < σ.next

/-- Decode the looked-up attribute state into the flat `Attributes` record
(defaults apply when a field is unbound, mirroring the class-level defaults
the chain would end in). -/
def attrsOfC (σ : Store) (c : PyClass) : Attributes :=
  { nillable := match lookupAttr σ c.chain .nillable with
      | some (.b x) => x
      | _ => defaultAttributes.nillable,
    min_occurs := match lookupAttr σ c.chain .min_occurs with
      | some (.n x) => x
      | _ => defaultAttributes.min_occurs,
    max_occurs := match lookupAttr σ c.chain .max_occurs with
      | some (.len x) => x
      | _ => defaultAttributes.max_occurs,
    values := match lookupAttr σ c.chain .values with
      | some (.strs x) => x
      | _ => defaultAttributes.values,
    min_len := match lookupAttr σ c.chain .min_len with
      | some (.n x) => x
      | _ => defaultAttributes.min_len,
    max_len := match lookupAttr σ c.chain .max_len with
      | some (.len x) => x
      | _ => defaultAttributes.max_len,
    pat := match lookupAttr σ c.chain .patternKey with
      | some (.txt x) => x
      | _ => defaultAttributes.pat }

/-- `string_to_xml` with its `assert isinstance(value, str) or
isinstance(value, unicode)` (base.py lines 39-40) made explicit over a
possibly-`None` value: `None` is not a string, so the assert raises
`AssertionError` before any element is built. -/
def string_to_xml_checked (type_name_ns : String) (value : Option String)
    (tns name : String) : Except PyErr XmlTree :=
  match value with
  | none => .error (.assertionError "value must be string or unicode")
  | some s => .ok (string_to_xml type_name_ns s tns name)

/-- `cls.get_type_name_ns()` for the xsd `Decimal` descriptor (opaque). -/
def decimalTypeNs : String := "xs:decimal"

/-- `Decimal.to_xml`: the `Decimal` serializer (primitive.py lines 177-181)
defines only `from_xml` and inherits `Base.to_xml` (base.py lines 104-106),
which delegates straight to `string_to_xml` with *no* `@nillable_value`
decorator — a `None` value reaches the isinstance assert and raises. -/
def Decimal_to_xml (value : Option String) (tns name : String) :
    Except PyErr XmlTree :=
  string_to_xml_checked decimalTypeNs value tns name

/-- Spec-side characterization used by claim C8: the element text begins
with `t` or `T` (case-insensitively). -/
def startsWithT : Option String → Bool
  | none => false
  | some s =>
    match s.toList with
    | [] => false
    | c :: _ => c.toLower == 't'

/-- Claim C1: the claim states that `is_default()` is true iff the Attribute
Record equals the base defaults, and in particular that a descriptor
customized with only `nillable=False` and `min_occurs=1` (such as
`Mandatory.Integer = Integer(min_occurs=1, nillable=False)` in primitive.py)
is not default.  The code evaluates otherwise: because
`SimpleType.is_default`/`String.is_default` invoke the parent check bound to
the parent class itself, the base-field comparisons are tautologies and the
customized record is still reported default, while the per-field comparison
the claim describes (`Base_is_default` applied to that record) rejects it. -/
theorem claim_C1_eval :
    SimpleType_is_default
      { defaultAttributes with nillable := false, min_occurs := 1 } = true
    ∧ String_is_default
      { defaultAttributes with nillable := false, min_occurs := 1 } = true
    ∧ Base_is_default
      { defaultAttributes with nillable := false, min_occurs := 1 } = false := by
  decide

/-- Claim C2: the claim asserts `from_wire(to_wire(v)) == v` for every
primitive descriptor, `Date` included.  On the code, the round trip for
`Date` never returns the value: `Date.to_xml` renders `YYYY-MM-DD`, but
`Date.from_xml` calls `.match` on the uncompiled pattern string
`_date_pattern` and raises `AttributeError` on every non-nil element, so
for every date the composition is an error, never `v`. -/
theorem claim_C2_eval (d : PyDate) (tns name : String) :
    Date_from_xml (Date_to_xml (some d) tns name) =
      .error (.attributeError "str object has no attribute match") := rfl

/-- Claim C3 counterexample: `Array(Integer).to_xml(None)` does not carry
the wire-type attribute the claim requires — the `@nillable_value` wrapper
intercepts `None` before the body's `values == None` branch can run, and
the nil element it produces has no `type` attribute. -/
theorem claim_C3_counterexample :
    (Array_to_xml integerChildSerializer "tns:integerArray" none
        "urn:t" "retval").get "type" = none := rfl

/-- Claim C3 as amended: given `None`, `Array.to_xml` is short-circuited by
the `@nillable_value` wrapper and produces the nil-marker element; the
array wrapper carrying the wire-type attribute with zero children is what
an *empty sequence* input produces. -/
theorem claim_C3_amended {α : Type} (ser : ChildSerializer α)
    (array_tn tns name : String) :
    Array_to_xml ser array_tn none tns name = Null_to_xml tns name
    ∧ (Array_to_xml ser array_tn (some []) tns name).get "type" = some array_tn
    ∧ (Array_to_xml ser array_tn (some []) tns name).children = []
    ∧ (Array_to_xml ser array_tn (some []) tns name).get nilKey = none :=
  ⟨rfl, rfl, rfl, rfl⟩

/-- Claim C4 counterexample: the claim's "for every descriptor,
`to_wire(None)` produces an element whose nil marker is `"true"`" fails at
`Decimal`: it inherits the *undecorated* `Base.to_xml`, so
`Decimal.to_xml(None, tns)` raises `string_to_xml`'s isinstance
`AssertionError` and produces no element at all. -/
theorem claim_C4_counterexample :
    Decimal_to_xml none "urn:t" "retval" =
      .error (.assertionError "value must be string or unicode") := rfl

/-- Claim C4 as amended: for every descriptor whose `to_xml` is wrapped by
`@nillable_value` (every serializer that overrides `to_xml`),
`to_wire(None)` produces an element whose xsi nil attribute is `"true"`
with no text and no children; `Decimal`, which inherits the undecorated
`Base.to_xml`, instead raises `AssertionError` on `None`.  And `from_wire`
— via the `@nillable_element` wrapper, for *any* wrapped decoder — returns
`None` on an element whose nil marker is present and `"true"`, without
invoking the decoder. -/
theorem claim_C4 :
    (∀ (α : Type) (f : α → String → String → XmlTree) (tns name : String),
        (nillableValue f none tns name).get nilKey = some "true"
        ∧ (nillableValue f none tns name).text = none
        ∧ (nillableValue f none tns name).children = [])
    ∧ (∀ (β : Type) (g : XmlTree → Except PyErr β) (e : XmlTree),
        e.get nilKey = some "true" → nillableElement g e = .ok none)
    ∧ (∀ tns name : String, Decimal_to_xml none tns name =
        .error (.assertionError "value must be string or unicode")) := by
  refine ⟨?_, ?_, fun tns name => rfl⟩
  · intro α f tns name
    exact ⟨rfl, rfl, rfl⟩
  · intro β g e h
    unfold nillableElement
    rw [h]
    rfl

/-- Witness for claim C4 at a concrete descriptor, element and decoder (a
decoder that would fail if invoked). -/
theorem claim_C4_witness :
    (nillableValue (fun (_ : Unit) tns name =>
        XmlTree.elem (qname tns name) [] none []) none "urn:t" "retval").get
      nilKey = some "true"
    ∧ nillableElement
        (fun _ => (.error (.exception "decoder invoked") : Except PyErr Unit))
        (Null_to_xml "urn:t" "retval") = .ok none :=
  ⟨(claim_C4.1 Unit _ "urn:t" "retval").1,
   claim_C4.2.1 Unit _ (Null_to_xml "urn:t" "retval") rfl⟩

/-- Claim C5: the claim says `Date.from_xml` returns the parsed calendar
date on a `YYYY-MM-DD` text and otherwise raises a parse error naming the
text.  The code does neither: because `_date_pattern` (primitive.py line
38) is a raw pattern string that is never compiled, `_date_pattern.match`
raises `AttributeError` on *every* non-nil element, well-formed text
included, before the `"Date [%s] not in known format"` branch can be
reached. -/
theorem claim_C5_eval (e : XmlTree)
    (h : pyTruthyStr (e.get nilKey) = false) :
    Date_from_xml e =
      .error (.attributeError "str object has no attribute match") := by
  unfold Date_from_xml nillableElement
  rw [h]
  rfl

/-- Witness for claim C5 at the element `<retval>2013-04-05</retval>`,
exactly the well-formed input the claim says must parse. -/
theorem claim_C5_eval_witness :
    pyTruthyStr ((textElem "2013-04-05").get nilKey) = false
    ∧ Date_from_xml (textElem "2013-04-05") =
        .error (.attributeError "str object has no attribute match") :=
  ⟨rfl, claim_C5_eval (textElem "2013-04-05") rfl⟩

/-- Claim C7: evaluation of `DateTime.from_xml` at the claim's inputs.  The
three precedence examples behave as the claim says (`Z` tags `pytz.utc`,
`+02:00` tags a +120-minute fixed offset, no suffix leaves the value naive,
all with identical fields; an unmatched text raises the parse error naming
it).  The last conjunct is the divergence: for `-05:30` the code computes
`tz_hr*60 + tz_min = -5*60 + 30 = -270` minutes — the sign is applied to
the hour part only — whereas the claim's "tagged with that fixed offset"
requires -330 minutes. -/
theorem claim_C7_eval :
    DateTime_from_xml (textElem "2020-01-01T00:00:00Z") =
      .ok (some ⟨2020, 1, 1, 0, 0, 0, 0, some .utc⟩)
    ∧ DateTime_from_xml (textElem "2020-01-01T00:00:00+02:00") =
      .ok (some ⟨2020, 1, 1, 0, 0, 0, 0, some (.fixedOffset 120)⟩)
    ∧ DateTime_from_xml (textElem "2020-01-01T00:00:00") =
      .ok (some ⟨2020, 1, 1, 0, 0, 0, 0, none⟩)
    ∧ DateTime_from_xml (textElem "junk") =
      .error (.exception "DateTime [junk] not in known format")
    ∧ DateTime_from_xml (textElem "2020-01-01T00:00:00-05:30") =
      .ok (some ⟨2020, 1, 1, 0, 0, 0, 0, some (.fixedOffset (-270))⟩)
    ∧ DateTime_from_xml (textElem "2020-01-01T00:00:00-05:30") ≠
      .ok (some ⟨2020, 1, 1, 0, 0, 0, 0, some (.fixedOffset (-330))⟩) := by
  refine ⟨rfl, rfl, rfl, rfl, rfl, fun hcontra => ?_⟩
  have h : DateTime_from_xml (textElem "2020-01-01T00:00:00-05:30") =
      .ok (some ⟨2020, 1, 1, 0, 0, 0, 0, some (.fixedOffset (-270))⟩) := rfl
  rw [h] at hcontra
  simp at hcontra

/-- The truthiness of `s and s.lower()[0] == 't'` is: text present and
beginning with `t`/`T`. -/
theorem pyBoolOfText_truthy (t : Option String) :
    (pyBoolOfText t).truthy = startsWithT t := by
  rcases t with _ | s
  · rfl
  · rcases hl : s.toList with _ | ⟨c, rest⟩
    · have hs : s = "" := by
        cases s with
        | mk data =>
          have hd : data = [] := hl
          subst hd
          rfl
      subst hs
      decide
    · show (match s.toList with
            | [] => PyBoolRes.pyStr s
            | c :: _ => PyBoolRes.pyBool (c.toLower == 't')).truthy =
          (match s.toList with
            | [] => false
            | c :: _ => c.toLower == 't')
      rw [hl]
      rfl

/-- Claim C8: `Boolean.to_xml` renders exactly the lower-case `"true"` /
`"false"`; `Boolean.from_xml` yields a truthy result exactly when the
element text begins with `t`/`T` (on absent or empty text the Python value
returned is the falsy `None` resp. `""`); the canonical round trips hold
with genuine `True`/`False`, and the text `"yes"` decodes to `False`. -/
theorem claim_C8 :
    (∀ tns name : String,
        (Boolean_to_xml (some true) tns name).text = some "true"
        ∧ (Boolean_to_xml (some false) tns name).text = some "false")
    ∧ (∀ e : XmlTree, pyTruthyStr (e.get nilKey) = false →
        ∃ r, Boolean_from_xml e = .ok (some r)
          ∧ r.truthy = startsWithT e.text)
    ∧ (∀ tns name : String,
        Boolean_from_xml (Boolean_to_xml (some true) tns name) =
          .ok (some (.pyBool true))
        ∧ Boolean_from_xml (Boolean_to_xml (some false) tns name) =
          .ok (some (.pyBool false)))
    ∧ Boolean_from_xml (textElem "yes") = .ok (some (.pyBool false)) := by
  refine ⟨fun tns name => ⟨rfl, rfl⟩, ?_, fun tns name => ⟨rfl, rfl⟩, rfl⟩
  intro e h
  refine ⟨pyBoolOfText e.text, ?_, pyBoolOfText_truthy e.text⟩
  unfold Boolean_from_xml nillableElement
  rw [h]
  rfl

/-- Witness for claim C8's universal decode conjunct at the element
`<retval>yes</retval>`. -/
theorem claim_C8_witness :
    pyTruthyStr ((textElem "yes").get nilKey) = false
    ∧ ∃ r, Boolean_from_xml (textElem "yes") = .ok (some r)
        ∧ r.truthy = startsWithT (textElem "yes").text :=
  ⟨rfl, claim_C8.2.1 (textElem "yes") rfl⟩

/-- Claim C6 counterexample: the fractional component `.0000006` — the
claim's own example, whose `round(0.6)` would give 1 microsecond — decodes
with microsecond 0: the code computes `int(float(".0000006") * 10**6)`,
which truncates 0.6 to 0. -/
theorem claim_C6_counterexample :
    DateTime_from_xml (textElem "2020-01-01T00:00:00.0000006") =
      .ok (some ⟨2020, 1, 1, 0, 0, 0, 0, none⟩)
    ∧ DateTime_from_xml (textElem "2020-01-01T00:00:00.0000006") ≠
      .ok (some ⟨2020, 1, 1, 0, 0, 0, 1, none⟩) := by
  refine ⟨rfl, fun hcontra => ?_⟩
  have h : DateTime_from_xml (textElem "2020-01-01T00:00:00.0000006") =
      .ok (some ⟨2020, 1, 1, 0, 0, 0, 0, none⟩) := rfl
  rw [h] at hcontra
  simp at hcontra

/-- Claim C6 as amended: the optional fractional-second component of a
matched datetime string is converted to microseconds by
`int(float(fraction) * 1e6)` — truncation toward zero of the
double-precision product, not rounding to nearest — so `.0000006` yields 0
microseconds (where `round` would give 1); the double roundings can also
undershoot the exact floor (`.064007` gives 64006, not 64007) and a long
all-nines fraction parses to the double 1.0, whose scaled truncation
1000000 the `datetime` constructor then rejects with `ValueError`; a frac
within double resolution decodes exactly (`.123456` gives 123456); when
the component is absent the microsecond field is 0. -/
theorem claim_C6_amended :
    DateTime_from_xml (textElem "2020-01-01T00:00:00.0000006") =
      .ok (some ⟨2020, 1, 1, 0, 0, 0, 0, none⟩)
    ∧ DateTime_from_xml (textElem "2020-01-01T00:00:00.064007") =
      .ok (some ⟨2020, 1, 1, 0, 0, 0, 64006, none⟩)
    ∧ DateTime_from_xml (textElem "2020-01-01T00:00:00.123456") =
      .ok (some ⟨2020, 1, 1, 0, 0, 0, 123456, none⟩)
    ∧ DateTime_from_xml (textElem "2020-01-01T00:00:00.99999999999999999") =
      .error (.valueError "argument out of range")
    ∧ DateTime_from_xml (textElem "2020-01-01T00:00:00") =
      .ok (some ⟨2020, 1, 1, 0, 0, 0, 0, none⟩) :=
  ⟨rfl, rfl, rfl, rfl, rfl⟩

/-- Attribute lookup only depends on the heap at the chain's ids. -/
theorem lookupAttr_congr (σ₁ σ₂ : Store) (l : List Nat)
    (h : ∀ i ∈ l, σ₁.heap i = σ₂.heap i) (k : AttrKey) :
    lookupAttr σ₁ l k = lookupAttr σ₂ l k := by
  induction l with
  | nil => rfl
  | cons i rest ih =>
    unfold lookupAttr
    rw [h i (List.mem_cons_self i rest)]
    cases hd : dictGet (σ₂.heap i) k with
    | some v => rfl
    | none => exact ih (fun j hj => h j (List.mem_cons_of_mem i hj))

/-- `customize` leaves the heap unchanged below the fresh id. -/
theorem pyCustomize_heap_frame (σ : Store) (c : PyClass) (kwargs : AttrDict)
    (i : Nat) (hi : i ≠ σ.next) :
    (pyCustomize σ c kwargs).1.heap i = σ.heap i := by
  unfold pyCustomize
  simp only []
  rw [if_neg hi]

/-- A `setattr` on a class whose own dict is `fresh` does not touch any
other dict. -/
theorem pySetattr_frame (τ : Store) (fresh : Nat) (rest : List Nat)
    (k : AttrKey) (v : AttrVal) (i : Nat) (hi : i ≠ fresh) :
    (pySetattr τ ⟨fresh :: rest⟩ k v).heap i = τ.heap i := by
  unfold pySetattr
  simp only []
  rw [if_neg hi]

/-- Iterated `setattr`s on the fresh-headed copy never touch any other
dict. -/
theorem muts_foldl_frame (fresh : Nat) (rest : List Nat)
    (muts : List (AttrKey × AttrVal)) :
    ∀ (τ : Store) (i : Nat), i ≠ fresh →
      (muts.foldl (fun t m => pySetattr t ⟨fresh :: rest⟩ m.1 m.2) τ).heap i =
        τ.heap i := by
  induction muts with
  | nil =>
    intro τ i hi
    rfl
  | cons m ms ih =>
    intro τ i hi
    simp only [List.foldl_cons]
    rw [ih (pySetattr τ ⟨fresh :: rest⟩ m.1 m.2) i hi,
        pySetattr_frame τ fresh rest m.1 m.2 i hi]

/-- Claim C9: `customize` returns a copy whose Attribute Record is the
original's with the keyword overrides applied (first conjunct); the
original's record is unchanged by the call (second); it stays unchanged
after any sequence of later `setattr` mutations of the copy's `Attributes`
(third); hence the original's decoded record — and with it `is_default()`
and every function of the record, wire behavior included — is identical
before and after (fourth and fifth). -/
theorem claim_C9 (σ : Store) (c : PyClass) (kwargs : AttrDict)
    (muts : List (AttrKey × AttrVal)) (h : StoreWF σ c) :
    (∀ k, lookupAttr (pyCustomize σ c kwargs).1
        (pyCustomize σ c kwargs).2.chain k =
      (match dictGet kwargs k with
       | some v => some v
       | none => lookupAttr σ c.chain k))
    ∧ (∀ k, lookupAttr (pyCustomize σ c kwargs).1 c.chain k =
        lookupAttr σ c.chain k)
    ∧ (∀ k, lookupAttr
        (muts.foldl (fun t m => pySetattr t (pyCustomize σ c kwargs).2 m.1 m.2)
          (pyCustomize σ c kwargs).1) c.chain k =
        lookupAttr σ c.chain k)
    ∧ attrsOfC
        (muts.foldl (fun t m => pySetattr t (pyCustomize σ c kwargs).2 m.1 m.2)
          (pyCustomize σ c kwargs).1) c =
      attrsOfC σ c
    ∧ String_is_default (attrsOfC
        (muts.foldl (fun t m => pySetattr t (pyCustomize σ c kwargs).2 m.1 m.2)
          (pyCustomize σ c kwargs).1) c) =
      String_is_default (attrsOfC σ c) := by
  have hframe : ∀ i ∈ c.chain,
      (pyCustomize σ c kwargs).1.heap i = σ.heap i := by
    intro i hi
    exact pyCustomize_heap_frame σ c kwargs i (Nat.ne_of_lt (h i hi))
  have h2 : ∀ k, lookupAttr (pyCustomize σ c kwargs).1 c.chain k =
      lookupAttr σ c.chain k :=
    fun k => lookupAttr_congr _ _ _ hframe k
  have h1 : ∀ k, lookupAttr (pyCustomize σ c kwargs).1
      (pyCustomize σ c kwargs).2.chain k =
      (match dictGet kwargs k with
       | some v => some v
       | none => lookupAttr σ c.chain k) := by
    intro k
    show lookupAttr (pyCustomize σ c kwargs).1 (σ.next :: c.chain) k = _
    simp only [lookupAttr]
    have hheap : (pyCustomize σ c kwargs).1.heap σ.next = kwargs := by
      simp [pyCustomize]
    rw [hheap]
    cases hd : dictGet kwargs k with
    | some v => rfl
    | none => exact h2 k
  have h3 : ∀ k, lookupAttr
      (muts.foldl (fun t m => pySetattr t (pyCustomize σ c kwargs).2 m.1 m.2)
        (pyCustomize σ c kwargs).1) c.chain k =
      lookupAttr σ c.chain k := by
    intro k
    apply lookupAttr_congr
    intro i hi
    have hne : i ≠ σ.next := Nat.ne_of_lt (h i hi)
    have hm := muts_foldl_frame σ.next c.chain muts
      (pyCustomize σ c kwargs).1 i hne
    exact hm.trans (hframe i hi)
  have h4 : attrsOfC
      (muts.foldl (fun t m => pySetattr t (pyCustomize σ c kwargs).2 m.1 m.2)
        (pyCustomize σ c kwargs).1) c = attrsOfC σ c := by
    unfold attrsOfC
    rw [h3 .nillable, h3 .min_occurs, h3 .max_occurs, h3 .values,
        h3 .min_len, h3 .max_len, h3 .patternKey]
  exact ⟨h1, h2, h3, h4, by rw [h4]⟩

/-- Witness for claim C9: a two-dict descriptor customized with
`nillable=False`, then the copy further mutated; the original's
`is_default()` is unchanged. -/
theorem claim_C9_witness :
    StoreWF ⟨fun i => if i = 0 then [(.min_len, .n 1)] else [], 2⟩ ⟨[0, 1]⟩
    ∧ String_is_default (attrsOfC
        (([(.min_occurs, .n 5)] : List (AttrKey × AttrVal)).foldl
          (fun t m => pySetattr t
            (pyCustomize ⟨fun i => if i = 0 then [(.min_len, .n 1)] else [], 2⟩
              ⟨[0, 1]⟩ [(.nillable, .b false)]).2 m.1 m.2)
          (pyCustomize ⟨fun i => if i = 0 then [(.min_len, .n 1)] else [], 2⟩
            ⟨[0, 1]⟩ [(.nillable, .b false)]).1) ⟨[0, 1]⟩) =
      String_is_default (attrsOfC
        ⟨fun i => if i = 0 then [(.min_len, .n 1)] else [], 2⟩ ⟨[0, 1]⟩) :=
  ⟨by unfold StoreWF; decide,
   (claim_C9 ⟨fun i => if i = 0 then [(.min_len, .n 1)] else [], 2⟩ ⟨[0, 1]⟩
      [(.nillable, .b false)] [(.min_occurs, .n 5)]
      (by unfold StoreWF; decide)).2.2.2.2⟩

/-- Claim C10: for a non-default, unregistered text descriptor (with
default `pattern` and `values`), `String.add_to_schema` emits exactly one
`length` facet when `min_len == max_len`; otherwise it emits `minLength`
iff `min_len` differs from the default 0 and `maxLength` iff `max_len`
differs from the default `"unbounded"`, independently, and no `length`
facet.  The three concrete instances of the claim are included:
`min_len=5, max_len=5` gives only `length=5`; `min_len=2, max_len=10`
gives `minLength=2` and `maxLength=10`; only `max_len=10` gives only
`maxLength=10`. -/
theorem claim_C10 (a : Attributes) (hdef : String_is_default a = false)
    (hpat : a.pat = none) (hvals : a.values = []) :
    (lenEq a.min_len a.max_len = true →
      String_add_to_schema false a = some [Facet.length a.min_len])
    ∧ (lenEq a.min_len a.max_len = false →
      ∃ fs, String_add_to_schema false a = some fs
        ∧ ((Facet.minLength a.min_len ∈ fs) ↔ a.min_len ≠ 0)
        ∧ ((Facet.maxLength a.max_len ∈ fs) ↔ a.max_len ≠ PyLen.unbounded)
        ∧ (∀ n, Facet.length n ∉ fs))
    ∧ String_add_to_schema false
        { defaultAttributes with min_len := 5, max_len := .num 5 } =
      some [Facet.length 5]
    ∧ String_add_to_schema false
        { defaultAttributes with min_len := 2, max_len := .num 10 } =
      some [Facet.minLength 2, Facet.maxLength (.num 10)]
    ∧ String_add_to_schema false
        { defaultAttributes with max_len := .num 10 } =
      some [Facet.maxLength (.num 10)] := by
  have hmain : String_add_to_schema false a =
      some (String_restriction_children a) := by
    unfold String_add_to_schema
    rw [hdef]
    rfl
  have hch : String_restriction_children a =
      (if lenEq a.min_len a.max_len then [Facet.length a.min_len]
       else (if a.min_len != 0 then [Facet.minLength a.min_len] else [])
         ++ (if a.max_len != PyLen.unbounded then [Facet.maxLength a.max_len]
             else [])) := by
    unfold String_restriction_children
    rw [hvals, hpat]
    simp [defaultAttributes]
  refine ⟨?_, ?_, by decide, by decide, by decide⟩
  · intro hlen
    rw [hmain, hch, hlen]
    rfl
  · intro hlen
    refine ⟨(if a.min_len != 0 then [Facet.minLength a.min_len] else [])
      ++ (if a.max_len != PyLen.unbounded then [Facet.maxLength a.max_len]
          else []), ?_, ?_⟩
    · rw [hmain, hch, hlen]
      rfl
    · cases hmin : (a.min_len != 0) <;>
        cases hmax : (a.max_len != PyLen.unbounded) <;>
          simp_all [bne_iff_ne]

/-- Witness for claim C10 at the descriptor customized with
`min_len=2, max_len=10`. -/
theorem claim_C10_witness :
    String_is_default
      { defaultAttributes with min_len := 2, max_len := PyLen.num 10 } = false
    ∧ ∃ fs, String_add_to_schema false
        { defaultAttributes with min_len := 2, max_len := PyLen.num 10 } =
          some fs
        ∧ ((Facet.minLength 2 ∈ fs) ↔ (2 : Nat) ≠ 0)
        ∧ ((Facet.maxLength (PyLen.num 10) ∈ fs) ↔
            PyLen.num 10 ≠ PyLen.unbounded)
        ∧ (∀ n, Facet.length n ∉ fs) :=
  ⟨by decide,
   (claim_C10 { defaultAttributes with min_len := 2, max_len := PyLen.num 10 }
      (by decide) rfl rfl).2.1 (by decide)⟩
